import Mathlib

/-!
Verification of the MelGAN-FPN vocoder modules (mel2wav/modules.py).

The source is a PyTorch file defining Audio2Mel, WNConv1d/WNConvTranspose1d,
ResnetBlock, Generator, NLayerDiscriminator and Discriminator.  The claims
under study are about tensor shapes, value ranges and initialization, so the
embedding works at two levels:

* a shape level: a rank-3 tensor is represented by its shape `Shape3`
  ([batch, channels, len]); each `nn` layer becomes a function
  `Shape3 → Option Shape3` returning `none` exactly where PyTorch raises
  (reflection padding not smaller than the input length, channel mismatch,
  invalid stride/dilation/output_padding, empty output, group
  indivisibility);

* a value level (real numbers): the elementwise tail of Audio2Mel
  (clamp + log10), the tanh tail of the Generator, and the weight-norm
  reparameterization, where the claims are about values rather than shapes.

Python-specific behaviour that the claims depend on (the
`bottom_up.remove(0)` call in NLayerDiscriminator.forward, which calls
`bool(tensor == 0)` on multi-element tensors and therefore raises) is
modelled explicitly.
-/

/-- Shape of a rank-3 tensor `[batch, channels, len]`. -/
structure Shape3 where
  batch : Nat
  channels : Nat
  len : Nat
deriving DecidableEq, Repr

/-- Number of elements of a rank-3 tensor. -/
def Shape3.numel (s : Shape3) : Nat := s.batch * s.channels * s.len

/-- Model of `nn.ReflectionPad1d(p)` / `F.pad(·, (p, p), "reflect")` on the last
dimension: PyTorch requires the padding to be strictly smaller than the input
length and raises otherwise. -/
def reflectionPad1dShape (p : Nat) (s : Shape3) : Option Shape3 :=
  if p < s.len then some { s with len := s.len + 2 * p } else none

/-- Model of `nn.LeakyReLU`: elementwise, shape preserved. -/
def leakyReLUShape (s : Shape3) : Option Shape3 := some s

/-- Model of `nn.Tanh`: elementwise, shape preserved. -/
def tanhShape (s : Shape3) : Option Shape3 := some s

/-- Model of `nn.Conv1d(inC, outC, k, stride, padding, dilation, groups)` (the
weight-normalized `WNConv1d` wraps `nn.Conv1d` and has the same shape
behaviour).  Output length `(len + 2·padding − dilation·(k−1) − 1)/stride + 1`;
fails on channel mismatch, zero stride/dilation/groups, channels not divisible
by groups, or an input shorter than the dilated kernel span. -/
def conv1dShape (inC outC k stride padding dilation groups : Nat) (s : Shape3) : Option Shape3 :=
  if s.channels = inC ∧ 0 < stride ∧ 0 < dilation ∧ 0 < groups ∧
      inC % groups = 0 ∧ outC % groups = 0 ∧
      dilation * (k - 1) + 1 ≤ s.len + 2 * padding then
    some { s with channels := outC,
                  len := (s.len + 2 * padding - (dilation * (k - 1) + 1)) / stride + 1 }
  else none

/-- Model of `nn.ConvTranspose1d(inC, outC, k, stride, padding, output_padding)`
(dilation is 1 everywhere in this source).  Output length
`(len − 1)·stride − 2·padding + k + output_padding`; PyTorch requires
`output_padding < stride` and a positive output length. -/
def convTranspose1dShape (inC outC k stride padding outputPadding : Nat) (s : Shape3) :
    Option Shape3 :=
  if s.channels = inC ∧ 0 < stride ∧ outputPadding < stride ∧ 1 ≤ s.len ∧
      2 * padding + 1 ≤ (s.len - 1) * stride + k + outputPadding then
    some { s with channels := outC,
                  len := (s.len - 1) * stride + k + outputPadding - 2 * padding }
  else none

/-- Elementwise addition of two tensors requires identical shapes
(no broadcasting occurs between the two branch outputs of `ResnetBlock`). -/
def addShape (a b : Shape3) : Option Shape3 := if a = b then some a else none

/-- Model of `ResnetBlock(dim, dilation).block`: `LeakyReLU(0.2)`,
`ReflectionPad1d(dilation)`, `WNConv1d(dim, dim, kernel_size=3, dilation)`,
`LeakyReLU(0.2)`, `WNConv1d(dim, dim, kernel_size=1)`. -/
def resnetBlockBranchShape (dim dilation : Nat) (s : Shape3) : Option Shape3 :=
  (leakyReLUShape s).bind fun s1 =>
    (reflectionPad1dShape dilation s1).bind fun s2 =>
      (conv1dShape dim dim 3 1 0 dilation 1 s2).bind fun s3 =>
        (leakyReLUShape s3).bind fun s4 =>
          conv1dShape dim dim 1 1 0 1 1 s4

/-- Model of `ResnetBlock.forward(x) = shortcut(x) + block(x)` with
`shortcut = WNConv1d(dim, dim, kernel_size=1)`. -/
def resnetBlockShape (dim dilation : Nat) (s : Shape3) : Option Shape3 :=
  (conv1dShape dim dim 1 1 0 1 1 s).bind fun sc =>
    (resnetBlockBranchShape dim dilation s).bind fun br =>
      addShape sc br

/-- The inner `j`-loop of `Generator.__init__`: `n_residual_layers`
`ResnetBlock`s at dilations `3 ** j`, `j = 0 .. n_residual_layers − 1`. -/
def resnetStackShape (dim nRes : Nat) (s : Shape3) : Option Shape3 :=
  (List.range nRes).foldlM (fun st j => resnetBlockShape dim (3 ^ j) st) s

/-- The ratio loop of `Generator.__init__` / the corresponding segment of
`Generator.forward`: for each ratio `r`, `LeakyReLU(0.2)`,
`WNConvTranspose1d(mult·ngf, mult·ngf//2, kernel_size=r·2, stride=r,
padding=r//2 + r%2, output_padding=r%2)`, then the residual stack; then
`mult //= 2`. -/
def upsampleStagesShape (ngf nRes : Nat) : List Nat → Nat → Shape3 → Option Shape3
  | [], _, s => some s
  | r :: rs, mult, s =>
    (leakyReLUShape s).bind fun s1 =>
      (convTranspose1dShape (mult * ngf) (mult * ngf / 2) (r * 2) r (r / 2 + r % 2) (r % 2)
          s1).bind fun s2 =>
        (resnetStackShape (mult * ngf / 2) nRes s2).bind fun s3 =>
          upsampleStagesShape ngf nRes rs (mult / 2) s3

/-- The list `ratios = [8, 8, 2, 2]` in `Generator.__init__`: a local constant, not a
constructor argument (the arguments are `input_size`, `ngf`,
`n_residual_layers`). -/
def generatorRatios (inputSize ngf nResidualLayers : Nat) : List Nat := [8, 8, 2, 2]

/-- The assignment `self.hop_length = np.prod(ratios)` in `Generator.__init__`. -/
def generatorHopLength (inputSize ngf nResidualLayers : Nat) : Nat :=
  (generatorRatios inputSize ngf nResidualLayers).prod

/-- Model of `Generator.forward` at shape level: `ReflectionPad1d(3)`,
`WNConv1d(input_size, mult·ngf, kernel_size=7)` with `mult = 2^len(ratios) = 16`,
the upsampling stages, then `LeakyReLU(0.2)`, `ReflectionPad1d(3)`,
`WNConv1d(ngf, 1, kernel_size=7)`, `Tanh`. -/
def generatorForwardShape (inputSize ngf nRes : Nat) (s : Shape3) : Option Shape3 :=
  (reflectionPad1dShape 3 s).bind fun s1 =>
    (conv1dShape inputSize (16 * ngf) 7 1 0 1 1 s1).bind fun s2 =>
      (upsampleStagesShape ngf nRes (generatorRatios inputSize ngf nRes) 16 s2).bind fun s3 =>
        (leakyReLUShape s3).bind fun s4 =>
          (reflectionPad1dShape 3 s4).bind fun s5 =>
            (conv1dShape ngf 1 7 1 0 1 1 s5).bind fun s6 =>
              tanhShape s6

/-- Model of `Audio2Mel.forward` at shape level, on an input of shape `[batch, 1, L]`:
`p = (n_fft − hop_length) // 2`; reflection-pad by `(p, p)` (requires
`p < L`), squeeze, then `torch.stft(·, n_fft, hop_length, win_length,
center=False)` (requires `win_length ≤ n_fft` and a padded length of at least
`n_fft`), giving `1 + (L + 2p − n_fft)/hop_length` frames; magnitude and the
mel matrix multiplication give `n_mel_channels` rows. -/
def audio2MelForwardShape (nFft hopLength winLength nMel batch L : Nat) : Option Shape3 :=
  let p := (nFft - hopLength) / 2
  if p < L then
    if 0 < hopLength ∧ winLength ≤ nFft ∧ nFft ≤ L + 2 * p then
      some { batch := batch, channels := nMel, len := (L + 2 * p - nFft) / hopLength + 1 }
    else none
  else none

/-- The `n = 1 .. n_layers` loop of `NLayerDiscriminator.__init__` / the
corresponding bottom-up applications in `forward`: starting from `nf = ndf`,
each iteration sets `nf_prev = nf`, `nf = min(nf·stride, 1024)` and applies
`WNConv1d(nf_prev, nf, kernel_size=stride·10+1, stride=stride,
padding=stride·5, groups=nf_prev//4)` + `LeakyReLU`.  Returns the collected
layer outputs and the final `(nf_prev, nf)` pair.  With `n_layers = 0` the
source would hit a Python `NameError` (`nf_prev` is only bound inside the
loop but is read after it), hence `none`. -/
def nLayerDiscMid (stride : Nat) : Nat → Nat → Shape3 → Option (List Shape3 × Nat × Nat)
  | 0, _, _ => none
  | 1, nf, s =>
    (conv1dShape nf (min (nf * stride) 1024) (stride * 10 + 1) stride (stride * 5) 1 (nf / 4)
        s).bind fun s1 =>
      some ([s1], nf, min (nf * stride) 1024)
  | n + 2, nf, s =>
    (conv1dShape nf (min (nf * stride) 1024) (stride * 10 + 1) stride (stride * 5) 1 (nf / 4)
        s).bind fun s1 =>
      (nLayerDiscMid stride (n + 1) (min (nf * stride) 1024) s1).bind fun rest =>
        some (s1 :: rest.1, rest.2)

/-- The bottom-up pass of `NLayerDiscriminator.forward`: `layer_0`
(`ReflectionPad1d(7)`, `WNConv1d(1, ndf, kernel_size=15)`, `LeakyReLU`), the
`n_layers` strided grouped layers, `layer_{n_layers+1}`
(`WNConv1d(nf_prev, min(nf·2, 1024), kernel_size=5, stride=1, padding=2)` —
note the source wires its input channel count to the loop's `nf_prev`, which
only matches the preceding layer's output when the 1024 cap makes them
equal), and `layer_{n_layers+2}` (`WNConv1d(nf, 1, kernel_size=3, stride=1,
padding=1)`).  Returns the list of all layer outputs in bottom-up order. -/
def nLayerDiscBottomUpShape (ndf nLayers factor : Nat) (s : Shape3) : Option (List Shape3) :=
  (reflectionPad1dShape 7 s).bind fun sa =>
    (conv1dShape 1 ndf 15 1 0 1 1 sa).bind fun s0 =>
      (nLayerDiscMid factor nLayers ndf s0).bind fun mid =>
        (mid.1.getLast?).bind fun sLast =>
          (conv1dShape mid.2.1 (min (mid.2.2 * 2) 1024) 5 1 2 1 1 sLast).bind fun sP1 =>
            (conv1dShape (min (mid.2.2 * 2) 1024) 1 3 1 1 1 1 sP1).bind fun sP2 =>
              some (s0 :: mid.1 ++ [sP1, sP2])

/-- Python `list.remove(0)` applied to a list of tensors
(`bottom_up.remove(0)` in `NLayerDiscriminator.forward`): `remove` scans the
list comparing each element to `0`; for a tensor, `element == 0` is an
elementwise tensor and taking its truth value raises a `RuntimeError` as soon
as the tensor has more than one element.  For a 0- or 1-element tensor the
truth value depends on the tensor's contents, which a shape-level embedding
does not carry; no input in this development reaches that branch. -/
def pyRemoveZero : List Shape3 → Except String (List Shape3)
  | [] => .error "ValueError: list.remove(x): x not in list"
  | s :: _ =>
    if 1 < s.numel then
      .error "RuntimeError: Boolean value of Tensor with more than one element is ambiguous"
    else
      .error "truth value of a 0- or 1-element tensor comparison is value-dependent"

/-- Lift a shape-level layer result into the `Except` monad, turning a shape
failure into the PyTorch `RuntimeError` it stands for. -/
def liftShape (o : Option Shape3) : Except String Shape3 :=
  match o with
  | some v => .ok v
  | none => .error "RuntimeError: invalid shape or argument"

/-- Python list indexing `l[i]`. -/
def pyIndex (l : List Shape3) (i : Nat) : Except String Shape3 :=
  match l[i]? with
  | some v => .ok v
  | none => .error "IndexError: list index out of range"

/-- Model of `NLayerDiscriminator.forward` (default `ndf, n_layers, downsampling_factor`
supplied by the caller): the bottom-up pass collects every layer output, the
list is reversed, the head is appended to `top_down`, then the source calls
`bottom_up.remove(0)` and, if that returned, would run the top-down merge
(`latlayer1`, `conv1d_0` … `conv1d_4`, `latlayer2` … `latlayer4`, with
elementwise additions) appending each merged map to `top_down`. -/
def nLayerDiscForwardShape (ndf nLayers factor : Nat) (x : Shape3) :
    Except String (List Shape3) := do
  let bu ← match nLayerDiscBottomUpShape ndf nLayers factor x with
           | some l => Except.ok l
           | none => Except.error "RuntimeError: invalid shape in bottom-up stack"
  let bu := bu.reverse
  let h ← pyIndex bu 0
  let topDown := [h]
  let bu ← pyRemoveZero bu
  let b0 ← pyIndex bu 0
  let b0 ← liftShape (conv1dShape 1024 1024 1 1 0 1 1 b0)
  let bu := bu.set 0 b0
  let topDown := topDown ++ [b0]
  let c0 ← liftShape (convTranspose1dShape 1024 1024 5 1 2 3 b0)
  let l1 ← pyIndex bu 1
  let l1 ← liftShape (conv1dShape 1024 1024 1 1 0 1 1 l1)
  let r ← liftShape (addShape c0 l1)
  let topDown := topDown ++ [r]
  let c1 ← liftShape (convTranspose1dShape 1024 256 41 4 20 3 r)
  let l2 ← pyIndex bu 2
  let l2 ← liftShape (conv1dShape 256 256 1 1 0 1 1 l2)
  let r ← liftShape (addShape c1 l2)
  let topDown := topDown ++ [r]
  let c2 ← liftShape (convTranspose1dShape 256 64 41 4 20 3 r)
  let l3 ← pyIndex bu 2
  let l3 ← liftShape (conv1dShape 64 64 1 1 0 1 1 l3)
  let r ← liftShape (addShape c2 l3)
  let topDown := topDown ++ [r]
  let c3 ← liftShape (convTranspose1dShape 64 16 41 4 20 3 r)
  let l4 ← pyIndex bu 3
  let l4 ← liftShape (conv1dShape 16 16 1 1 0 1 1 l4)
  let r ← liftShape (addShape c3 l4)
  let topDown := topDown ++ [r]
  let r ← liftShape (convTranspose1dShape 16 1 41 4 20 3 r)
  pure (topDown ++ [r])

/-- Model of `Discriminator.forward`: each of the `num_D` sub-discriminators is run on
the same input `x` (the `x = self.downsample(x)` line between them is
commented out in the source) and the per-discriminator output lists are
collected in order. -/
def discriminatorForwardShape (numD ndf nLayers factor : Nat) (x : Shape3) :
    Except String (List (List Shape3)) :=
  (List.range numD).mapM fun _ => nLayerDiscForwardShape ndf nLayers factor x

/-! ### Value-level model (real numbers)

The claims about value ranges (the clamp floor of `Audio2Mel`, the tanh range
of the `Generator`, the weight-norm magnitude) concern the numeric content of
the tensors, modelled here over `ℝ`. -/

/-- Model of `torch.sqrt(real_part ** 2 + imag_part ** 2)` in `Audio2Mel.forward`: the
magnitude of one complex STFT bin. -/
noncomputable def stftMagnitude (re im : ℝ) : ℝ := Real.sqrt (re ^ 2 + im ^ 2)

/-- One entry of `torch.matmul(self.mel_basis, magnitude)`: the dot product of
a row of the mel filter bank with a column (one frame) of the magnitude
spectrogram. -/
noncomputable def melProjEntry {nFreq : ℕ} (basisRow magCol : Fin nFreq → ℝ) : ℝ :=
  ∑ t, basisRow t * magCol t

/-- Model of `torch.clamp(·, min=1e-5)`, elementwise. -/
noncomputable def clampFloor (x : ℝ) : ℝ := max x (1 / 100000)

/-- Model of `torch.log10(torch.clamp(·, min=1e-5))`, elementwise: one entry of
`log_mel_spec`. -/
noncomputable def logMelEntry (x : ℝ) : ℝ := Real.logb 10 (clampFloor x)

/-- One entry of the log-mel spectrogram returned by `Audio2Mel.forward`:
magnitude of each STFT bin of the frame, mel projection, clamp, log10. -/
noncomputable def audio2MelEntry {nFreq : ℕ} (basisRow re im : Fin nFreq → ℝ) : ℝ :=
  logMelEntry (melProjEntry basisRow fun t => stftMagnitude (re t) (im t))

/-- Model of `nn.Tanh()`, the last module of `Generator.model`, elementwise over the
tensor values (flattened to a list). -/
noncomputable def tanhLayerValues (xs : List ℝ) : List ℝ := xs.map Real.tanh

/-- Model of `Generator.forward` at value level: `nn.Sequential` applies every module
before the final `nn.Tanh()` (abstracted as a function on the flattened
values, since the claim depends only on the last module) and then `nn.Tanh()`. -/
noncomputable def generatorForwardValues (precedingModules : List ℝ → List ℝ) (x : List ℝ) :
    List ℝ :=
  tanhLayerValues (precedingModules x)

/-- The per-output-channel Euclidean norm `torch.norm_except_dim(v, 2, dim=0)`
computes for `weight_norm`: here one output-channel slice of the direction
tensor `v`, flattened to `Fin n → ℝ`. -/
noncomputable def sliceNorm {n : ℕ} (v : Fin n → ℝ) : ℝ := Real.sqrt (∑ i, v i ^ 2)

/-- Model of `torch._weight_norm` with `dim = 0`, restricted to one output-channel
slice: the effective weight used by the forward pass is
`w = g · v / ‖v‖` where `g` is that channel's stored magnitude scalar. -/
noncomputable def effectiveWeight {n : ℕ} (g : ℝ) (v : Fin n → ℝ) : Fin n → ℝ :=
  fun i => g * v i / sliceNorm v

/-! ### Initialization model

`weights_init` dispatches on the class name of each submodule and mutates its
`weight`/`bias` tensors in place; the tensors' initialization state is
modelled symbolically. -/

/-- Symbolic initialization state of a parameter tensor. -/
inductive TensorInit where
  /-- whatever `nn.Conv1d`/`nn.ConvTranspose1d` left in the tensor: weights
  from the kaiming-uniform default, biases from `uniform(-1/√k, 1/√k)` —
  in particular not the constant zero -/
  | defaultConv1dInit
  /-- state after `tensor.data.normal_(mean, std)` -/
  | normalDraw (mean std : ℚ)
  /-- state after `tensor.data.fill_(c)` -/
  | constantFill (c : ℚ)
deriving DecidableEq, Repr

/-- A PyTorch submodule as `weights_init` sees it: its class name and the
initialization state of its two parameter tensors. -/
structure TorchModule where
  className : String
  weight : TensorInit
  bias : TensorInit
deriving DecidableEq, Repr

/-- Predicate: `cs` starts with the character sequence `ns`. -/
def listStartsWith : List Char → List Char → Bool
  | _, [] => true
  | [], _ :: _ => false
  | c :: cs, n :: ns => c == n && listStartsWith cs ns

/-- Predicate: `ns` occurs as a contiguous subsequence of `cs`. -/
def listContainsSub : List Char → List Char → Bool
  | [], ns => ns.isEmpty
  | c :: cs, ns => listStartsWith (c :: cs) ns || listContainsSub cs ns

/-- Python `s.find(sub) != -1`: `sub` occurs somewhere in `s`. -/
def pyFindSub (s sub : String) : Bool := listContainsSub s.data sub.data

/-- Model of `weights_init(m)`: if the class name contains `"Conv"`, redraw `weight`
from a zero-mean Gaussian with standard deviation `0.02 = 1/50` (the bias is
not touched); if it contains `"BatchNorm2d"`, redraw `weight` from a Gaussian
with mean 1 and fill `bias` with zero; otherwise leave the module unchanged. -/
def weights_init (m : TorchModule) : TorchModule :=
  if pyFindSub m.className "Conv" then
    { m with weight := .normalDraw 0 (1 / 50) }
  else if pyFindSub m.className "BatchNorm2d" then
    { m with weight := .normalDraw 1 (1 / 50), bias := .constantFill 0 }
  else m

/-! ### Shape lemmas for the individual layers -/

theorem reflectionPad1dShape_eq (p b c L : Nat) (h : p < L) :
    reflectionPad1dShape p ⟨b, c, L⟩ = some ⟨b, c, L + 2 * p⟩ := by
  simp [reflectionPad1dShape, h]

theorem conv1dShape_plain (inC outC k b L : Nat) (hk : 1 ≤ k) (hkL : k ≤ L) :
    conv1dShape inC outC k 1 0 1 1 ⟨b, inC, L⟩ = some ⟨b, outC, L - k + 1⟩ := by
  simp only [conv1dShape]
  rw [if_pos]
  · simp only [Option.some.injEq]
    congr 1
    omega
  · exact ⟨trivial, Nat.one_pos, Nat.one_pos, Nat.one_pos, by omega, by omega, by omega⟩

theorem conv1dShape_k1 (inC outC b L : Nat) (h : 1 ≤ L) :
    conv1dShape inC outC 1 1 0 1 1 ⟨b, inC, L⟩ = some ⟨b, outC, L⟩ := by
  rw [conv1dShape_plain inC outC 1 b L le_rfl h]
  simp only [Option.some.injEq]
  congr 1
  omega

theorem conv1dShape_k7 (inC outC b L : Nat) (h : 1 ≤ L) :
    conv1dShape inC outC 7 1 0 1 1 ⟨b, inC, L + 6⟩ = some ⟨b, outC, L⟩ := by
  rw [conv1dShape_plain inC outC 7 b (L + 6) (by omega) (by omega)]
  simp only [Option.some.injEq]
  congr 1
  omega

theorem conv1dShape_dil3 (c b L d : Nat) (hd : 0 < d) (h : 2 * d + 1 ≤ L) :
    conv1dShape c c 3 1 0 d 1 ⟨b, c, L⟩ = some ⟨b, c, L - 2 * d⟩ := by
  simp only [conv1dShape]
  rw [if_pos]
  · simp only [Option.some.injEq]
    congr 1
    omega
  · exact ⟨trivial, Nat.one_pos, hd, Nat.one_pos, by omega, by omega, by omega⟩

theorem convTranspose1dShape_r8 (inC outC b L : Nat) (hL : 1 ≤ L) :
    convTranspose1dShape inC outC 16 8 4 0 ⟨b, inC, L⟩ = some ⟨b, outC, 8 * L⟩ := by
  simp only [convTranspose1dShape]
  rw [if_pos]
  · simp only [Option.some.injEq]
    congr 1
    omega
  · exact ⟨trivial, by omega, by omega, by omega, by omega⟩

theorem convTranspose1dShape_r2 (inC outC b L : Nat) (hL : 1 ≤ L) :
    convTranspose1dShape inC outC 4 2 1 0 ⟨b, inC, L⟩ = some ⟨b, outC, 2 * L⟩ := by
  simp only [convTranspose1dShape]
  rw [if_pos]
  · simp only [Option.some.injEq]
    congr 1
    omega
  · exact ⟨trivial, by omega, by omega, by omega, by omega⟩

theorem addShape_self (a : Shape3) : addShape a a = some a := by
  simp [addShape]

/-- A `ResnetBlock` preserves the shape whenever its reflection padding is
valid, i.e. the dilation is positive and smaller than the temporal length. -/
theorem resnetBlockShape_eq (dim d b L : Nat) (hd : 0 < d) (hdL : d < L) :
    resnetBlockShape dim d ⟨b, dim, L⟩ = some ⟨b, dim, L⟩ := by
  have h1 : 1 ≤ L := by omega
  simp only [resnetBlockShape, resnetBlockBranchShape, leakyReLUShape,
    conv1dShape_k1 dim dim b L h1, Option.some_bind',
    reflectionPad1dShape_eq d b dim L hdL,
    conv1dShape_dil3 dim b (L + 2 * d) d hd (by omega)]
  rw [show L + 2 * d - 2 * d = L by omega]
  simp only [conv1dShape_k1 dim dim b L h1, Option.some_bind', addShape_self]

/-- The stack of `n` residual blocks (dilations `3 ^ 0 … 3 ^ (n−1)`) preserves
the shape whenever every dilation is smaller than the temporal length. -/
theorem resnetStackShape_eq (dim n b L : Nat) (h : ∀ j < n, 3 ^ j < L) :
    resnetStackShape dim n ⟨b, dim, L⟩ = some ⟨b, dim, L⟩ := by
  induction n with
  | zero => simp [resnetStackShape]
  | succ m ih =>
    unfold resnetStackShape at ih ⊢
    rw [List.range_succ, List.foldlM_append, ih (fun j hj => h j (by omega))]
    simp only [List.foldlM_cons, List.foldlM_nil, Option.bind_eq_bind, Option.some_bind']
    rw [resnetBlockShape_eq dim (3 ^ m) b L (pow_pos (by norm_num) m) (h m (by omega))]
    rfl

/-! ### Claims -/

/-- C1 counterexample: the claim quantifies over every input `[batch,
input_size, F]`, but for `F = 1` (here with `input_size = 80`, `ngf = 32`,
`n_residual_layers = 3`) the very first module, `nn.ReflectionPad1d(3)`,
raises, because PyTorch requires the reflection padding to be smaller than
the input length; no tensor of shape `[1, 1, 256]` is returned. -/
theorem c1_generator_shape_counterexample :
    generatorForwardShape 80 32 3 ⟨1, 80, 1⟩ = none := by decide

/-- C1 (amended): for every mel input `[b, input_size, F]` with `F ≥ 4` (so
the initial `ReflectionPad1d(3)` is valid) and every residual dilation
`3 ^ j` smaller than `8·F` (so each residual block's reflection padding is
valid), `Generator.forward` returns shape `[b, 1, 256·F]`: each
transposed-convolution stage with stride `r`, kernel `2r`, padding
`r//2 + r%2` and output padding `r%2` multiplies the length exactly by `r`,
the residual blocks and the reflection-padded convolutions preserve it, and
the product of the ratios `[8, 8, 2, 2]` is 256. -/
theorem c1_generator_output_shape_amended (b inS ngf nRes F : Nat) (hF : 4 ≤ F)
    (hres : ∀ j < nRes, 3 ^ j < 8 * F) :
    generatorForwardShape inS ngf nRes ⟨b, inS, F⟩ = some ⟨b, 1, 256 * F⟩ := by
  have hF1 : 1 ≤ F := by omega
  have e1 : reflectionPad1dShape 3 ⟨b, inS, F⟩ = some ⟨b, inS, F + 6⟩ := by
    rw [reflectionPad1dShape_eq 3 b inS F (by omega)]
  have e2 : conv1dShape inS (16 * ngf) 7 1 0 1 1 ⟨b, inS, F + 6⟩ =
      some ⟨b, 16 * ngf, F⟩ := conv1dShape_k7 inS (16 * ngf) b F hF1
  simp only [generatorForwardShape, generatorRatios, tanhShape]
  norm_num [upsampleStagesShape, leakyReLUShape, Option.some_bind']
  rw [e1]
  simp only [Option.some_bind']
  rw [e2]
  simp only [Option.some_bind']
  rw [convTranspose1dShape_r8 (16 * ngf) (16 * ngf / 2) b F hF1]
  simp only [Option.some_bind']
  rw [show (16 * ngf / 2 : Nat) = 8 * ngf by omega]
  rw [resnetStackShape_eq (8 * ngf) nRes b (8 * F) hres]
  simp only [Option.some_bind']
  rw [convTranspose1dShape_r8 (8 * ngf) (8 * ngf / 2) b (8 * F) (by omega)]
  simp only [Option.some_bind']
  rw [show (8 * ngf / 2 : Nat) = 4 * ngf by omega]
  rw [show (8 * (8 * F) : Nat) = 64 * F by omega]
  rw [resnetStackShape_eq (4 * ngf) nRes b (64 * F)
    (fun j hj => lt_of_lt_of_le (hres j hj) (by omega))]
  simp only [Option.some_bind']
  rw [convTranspose1dShape_r2 (4 * ngf) (4 * ngf / 2) b (64 * F) (by omega)]
  simp only [Option.some_bind']
  rw [show (4 * ngf / 2 : Nat) = 2 * ngf by omega]
  rw [show (2 * (64 * F) : Nat) = 128 * F by omega]
  rw [resnetStackShape_eq (2 * ngf) nRes b (128 * F)
    (fun j hj => lt_of_lt_of_le (hres j hj) (by omega))]
  simp only [Option.some_bind']
  rw [convTranspose1dShape_r2 (2 * ngf) ngf b (128 * F) (by omega)]
  simp only [Option.some_bind']
  rw [show (2 * (128 * F) : Nat) = 256 * F by omega]
  rw [resnetStackShape_eq ngf nRes b (256 * F)
    (fun j hj => lt_of_lt_of_le (hres j hj) (by omega))]
  simp only [Option.some_bind']
  rw [reflectionPad1dShape_eq 3 b ngf (256 * F) (by omega)]
  simp only [Option.some_bind']
  rw [show (256 * F + 2 * 3 : Nat) = 256 * F + 6 by omega]
  rw [conv1dShape_k7 ngf 1 b (256 * F) (by omega)]

/-- C1 witness: the amended theorem instantiated at `b = 1`,
`input_size = 80`, `ngf = 32`, `n_residual_layers = 3`, `F = 10`. -/
theorem c1_generator_output_shape_witness :
    (4 ≤ 10 ∧ ∀ j < 3, 3 ^ j < 8 * 10) ∧
      generatorForwardShape 80 32 3 ⟨1, 80, 10⟩ = some ⟨1, 1, 256 * 10⟩ :=
  ⟨⟨by omega, by decide⟩, c1_generator_output_shape_amended 1 80 32 3 10 (by omega) (by decide)⟩

/-- C2 counterexample: with the default configuration (`n_fft = 1024`,
`hop_length = 256`, `win_length = 1024`) and a waveform of length `L = 512`,
`Audio2Mel.forward` produces 2 frames, while the claimed formula
`1 + ⌊L / hop_length⌋` predicts 3. -/
theorem c2_frame_count_counterexample :
    audio2MelForwardShape 1024 256 1024 80 1 512 = some ⟨1, 80, 2⟩ ∧
      (2 : Nat) ≠ 1 + 512 / 256 := by decide

/-- C2 (amended): for every waveform length `L > 384` (the reflection padding
`p = (n_fft − hop_length)//2 = 384` must be smaller than `L`),
`Audio2Mel.forward` with the default configuration produces exactly
`⌊L / hop_length⌋` frames — not `1 + ⌊L / hop_length⌋`; this agrees with the
spec's own padded-time formula `1 + ⌊(L + 2p − n_fft)/hop_length⌋`. -/
theorem c2_frame_count_amended (b nMel L : Nat) (hL : 384 < L) :
    audio2MelForwardShape 1024 256 1024 nMel b L = some ⟨b, nMel, L / 256⟩ ∧
      L / 256 = 1 + (L + 2 * ((1024 - 256) / 2) - 1024) / 256 := by
  constructor
  · simp only [audio2MelForwardShape]
    norm_num
    omega
  · omega

/-- C2 witness: the amended theorem instantiated at `b = 1`,
`n_mel_channels = 80`, `L = 1000`, where the frame count is
`⌊1000/256⌋ = 3`. -/
theorem c2_frame_count_witness :
    384 < 1000 ∧ audio2MelForwardShape 1024 256 1024 80 1 1000 = some ⟨1, 80, 3⟩ :=
  ⟨by omega, (c2_frame_count_amended 1 80 1000 (by omega)).1⟩

/-- C4 counterexample: the claim quantifies over every input `[batch, dim, L]`
and every dilation `d ≥ 1`, but at `dim = 2`, `L = 1`, `d = 1` the block's
`nn.ReflectionPad1d(1)` raises (PyTorch requires the padding to be smaller
than the input length), so no tensor is returned at all. -/
theorem c4_resnet_block_counterexample :
    resnetBlockShape 2 1 ⟨1, 2, 1⟩ = none := by decide

/-- C4 (amended): for every input `[b, dim, L]` and every dilation `d` with
`1 ≤ d < L` (so the block's reflection padding is valid),
`ResnetBlock(dim, dilation=d).forward` returns exactly the input shape: the
reflection padding by `d` cancels the `2d` length reduction of the dilated
kernel-3 convolution, the kernel-1 convolutions preserve length, and the
shortcut output has the identical shape. -/
theorem c4_resnet_block_shape_amended (b dim L d : Nat) (hd : 1 ≤ d) (hdL : d < L) :
    resnetBlockShape dim d ⟨b, dim, L⟩ = some ⟨b, dim, L⟩ :=
  resnetBlockShape_eq dim d b L hd hdL

/-- C4 witness: the amended theorem instantiated at `b = 1`, `dim = 4`,
`L = 10`, `d = 3`. -/
theorem c4_resnet_block_shape_witness :
    (1 ≤ 3 ∧ 3 < 10) ∧ resnetBlockShape 4 3 ⟨1, 4, 10⟩ = some ⟨1, 4, 10⟩ :=
  ⟨⟨by omega, by omega⟩, c4_resnet_block_shape_amended 1 4 10 3 (by omega) (by omega)⟩

/-- C10: for every choice of the constructor arguments `input_size`, `ngf`
and `n_residual_layers`, the constructed `Generator` uses the fixed ratio
sequence `[8, 8, 2, 2]` (a local constant of `__init__`, not configurable)
and `hop_length = np.prod(ratios) = 256`. -/
theorem c10_fixed_ratios_hop_length (inS ngf nRes : Nat) :
    generatorHopLength inS ngf nRes = 256 ∧ generatorRatios inS ngf nRes = [8, 8, 2, 2] :=
  ⟨rfl, rfl⟩

/-- C3 (code bug): on the well-formed single-channel input `[1, 1, 4096]`
(with `ndf = 16`, `n_layers = 4`, `downsampling_factor = 4`), the bottom-up
stack succeeds, but `NLayerDiscriminator.forward` then executes
`bottom_up.remove(0)` — removal by value, not by index — which compares the
reversed head (the `[1, 1, 16]` score map, 16 elements) to `0` and raises
`RuntimeError: Boolean value of Tensor with more than one element is
ambiguous`; no feature-map sequence is ever returned, contradicting the claim
that a failure can occur only for malformed input shapes. -/
theorem c3_nlayer_discriminator_forward_raises :
    nLayerDiscForwardShape 16 4 4 ⟨1, 1, 4096⟩ =
      Except.error
        "RuntimeError: Boolean value of Tensor with more than one element is ambiguous" := by
  rfl

/-- C7 (code bug): `Discriminator.forward` does loop over its `num_D`
sub-discriminators, passing each the unchanged input `x` (the downsampling
call between them is commented out), but every `NLayerDiscriminator.forward`
raises at `bottom_up.remove(0)` (see C3), so on the well-formed input
`[1, 1, 4096]` (here `num_D = 3`, `ndf = 16`, `n_layers = 4`,
`downsampling_factor = 4`) no outer sequence of `num_D` entries is returned. -/
theorem c7_discriminator_forward_raises :
    discriminatorForwardShape 3 16 4 4 ⟨1, 1, 4096⟩ =
      Except.error
        "RuntimeError: Boolean value of Tensor with more than one element is ambiguous" := by
  rfl

/-- C5: every entry of the log-mel spectrogram returned by
`Audio2Mel.forward` is at least `log10(1e-5)`: the mel projection of the STFT
magnitudes is clamped below at `1e-5` before the base-10 logarithm, and
`log10` is monotone. -/
theorem c5_log_mel_floor {nFreq : ℕ} (basisRow re im : Fin nFreq → ℝ) :
    Real.logb 10 (1 / 100000) ≤ audio2MelEntry basisRow re im := by
  unfold audio2MelEntry logMelEntry clampFloor
  exact Real.logb_le_logb_of_le (by norm_num) (by norm_num) (le_max_right _ _)

theorem tanh_lt_one_real (x : ℝ) : Real.tanh x < 1 := by
  rw [Real.tanh_eq_sinh_div_cosh, div_lt_one (Real.cosh_pos x)]
  linarith [Real.cosh_sub_sinh x, Real.exp_pos (-x)]

theorem neg_one_lt_tanh_real (x : ℝ) : -1 < Real.tanh x := by
  rw [Real.tanh_eq_sinh_div_cosh, lt_div_iff₀ (Real.cosh_pos x)]
  linarith [Real.cosh_add_sinh x, Real.exp_pos x]

/-- C6: every element of the waveform returned by `Generator.forward` lies in
`[-1, 1]`, because the final module of the pipeline is `nn.Tanh()` (whatever
the preceding modules computed). -/
theorem c6_generator_output_bounded (precedingModules : List ℝ → List ℝ) (x : List ℝ)
    (y : ℝ) (hy : y ∈ generatorForwardValues precedingModules x) : -1 ≤ y ∧ y ≤ 1 := by
  unfold generatorForwardValues tanhLayerValues at hy
  rcases List.mem_map.mp hy with ⟨a, -, rfl⟩
  exact ⟨(neg_one_lt_tanh_real a).le, (tanh_lt_one_real a).le⟩

/-- C6 witness: the theorem instantiated at the pre-tanh value list `[0]`. -/
theorem c6_generator_output_bounded_witness :
    Real.tanh 0 ∈ generatorForwardValues id [0] ∧ -1 ≤ Real.tanh 0 ∧ Real.tanh 0 ≤ 1 :=
  ⟨List.mem_map_of_mem Real.tanh (List.mem_singleton_self 0),
    c6_generator_output_bounded id [0] (Real.tanh 0)
      (List.mem_map_of_mem Real.tanh (List.mem_singleton_self 0))⟩

/-- A one-entry direction slice of value 1; its Euclidean norm is 1. -/
noncomputable def oneDir : Fin 1 → ℝ := fun _ => 1

theorem sliceNorm_oneDir : sliceNorm oneDir = 1 := by
  unfold sliceNorm oneDir
  simp

/-- C8 counterexample: the claim asserts the per-channel norm of the
effective weight equals the stored magnitude scalar for every value of the
magnitude tensor, but for the magnitude `g = -2` (and direction slice `(1)`)
the norm is `2 = |g|`, not `-2`. -/
theorem c8_weight_norm_counterexample :
    sliceNorm (effectiveWeight (-2) oneDir) ≠ -2 := by
  have h2 : sliceNorm (effectiveWeight (-2) oneDir) = 2 := by
    unfold sliceNorm effectiveWeight
    have hterm : ∑ i : Fin 1, ((-2) * oneDir i / sliceNorm oneDir) ^ 2 = 2 ^ 2 := by
      rw [Fin.sum_univ_one, sliceNorm_oneDir]
      simp [oneDir]
    rw [hterm]
    exact Real.sqrt_sq (by norm_num)
  rw [h2]
  norm_num

/-- C8 (amended): for every direction slice `v` with nonzero norm and every
magnitude scalar `g`, the per-channel Euclidean norm of the effective weight
`g · v / ‖v‖` equals `|g|` — the absolute value of the stored magnitude, not
the (possibly negative) magnitude itself; the two agree exactly when
`g ≥ 0`. -/
theorem c8_weight_norm_amended {n : ℕ} (g : ℝ) (v : Fin n → ℝ) (hv : sliceNorm v ≠ 0) :
    sliceNorm (effectiveWeight g v) = |g| := by
  have hS : (0 : ℝ) ≤ ∑ i, v i ^ 2 := Finset.sum_nonneg fun i _ => sq_nonneg _
  have hSne : (∑ i, v i ^ 2) ≠ 0 := by
    intro h
    apply hv
    unfold sliceNorm
    rw [h, Real.sqrt_zero]
  have hsq : sliceNorm v ^ 2 = ∑ i, v i ^ 2 := Real.sq_sqrt hS
  have hsum : ∑ i, (g * v i / sliceNorm v) ^ 2 = g ^ 2 := by
    calc ∑ i, (g * v i / sliceNorm v) ^ 2
        = ∑ i, g ^ 2 / (∑ t, v t ^ 2) * v i ^ 2 := by
          refine Finset.sum_congr rfl fun i _ => ?_
          rw [div_pow, mul_pow, hsq]
          ring
      _ = g ^ 2 / (∑ t, v t ^ 2) * ∑ i, v i ^ 2 := by rw [Finset.mul_sum]
      _ = g ^ 2 := by field_simp
  have hrepr : sliceNorm (effectiveWeight g v) =
      Real.sqrt (∑ i, (g * v i / sliceNorm v) ^ 2) := rfl
  rw [hrepr, hsum, Real.sqrt_sq_eq_abs]

/-- A one-entry direction slice of value 2; its Euclidean norm is 2. -/
noncomputable def twoDir : Fin 1 → ℝ := fun _ => 2

theorem sliceNorm_twoDir : sliceNorm twoDir = 2 := by
  unfold sliceNorm twoDir
  rw [show ∑ i : Fin 1, (2 : ℝ) ^ 2 = 2 ^ 2 by simp]
  exact Real.sqrt_sq (by norm_num)

/-- C8 witness: the amended theorem instantiated at `g = 3` and the direction
slice `(2)`, whose norm `2` is nonzero. -/
theorem c8_weight_norm_witness :
    sliceNorm twoDir ≠ 0 ∧ sliceNorm (effectiveWeight 3 twoDir) = |(3 : ℝ)| :=
  ⟨by rw [sliceNorm_twoDir]; norm_num,
    c8_weight_norm_amended 3 twoDir (by rw [sliceNorm_twoDir]; norm_num)⟩

/-- C9 counterexample: `weights_init` applied to a freshly constructed
convolution module (class name `"Conv1d"`, weight and bias in the PyTorch
default state) redraws the weight but leaves the bias in its default state —
the `"Conv"` branch of `weights_init` touches only `m.weight.data`, so the
bias is not zero-initialized as claimed. -/
theorem c9_weights_init_bias_counterexample :
    (weights_init ⟨"Conv1d", .defaultConv1dInit, .defaultConv1dInit⟩).bias ≠
      TensorInit.constantFill 0 := by decide

/-- C9 (amended): for every convolutional or transposed-convolutional
submodule of the Generator (class names `"Conv1d"` and `"ConvTranspose1d"`,
both containing `"Conv"`), the `weights_init` pass run by
`Generator.__init__` redraws the weight from a zero-mean Gaussian with
standard deviation `0.02 = 1/50` and leaves the bias exactly as the layer
constructor initialized it (it is not zeroed). -/
theorem c9_weights_init_amended (m : TorchModule)
    (hConv : m.className = "Conv1d" ∨ m.className = "ConvTranspose1d") :
    (weights_init m).weight = TensorInit.normalDraw 0 (1 / 50) ∧
      (weights_init m).bias = m.bias := by
  have hfind : pyFindSub m.className "Conv" = true := by
    rcases hConv with h | h <;> rw [h] <;> decide
  simp [weights_init, hfind]

/-- C9 witness: the amended theorem instantiated at a freshly constructed
transposed convolution. -/
theorem c9_weights_init_witness :
    ((⟨"ConvTranspose1d", .defaultConv1dInit, .defaultConv1dInit⟩ : TorchModule).className =
        "Conv1d" ∨
      (⟨"ConvTranspose1d", .defaultConv1dInit, .defaultConv1dInit⟩ : TorchModule).className =
        "ConvTranspose1d") ∧
      (weights_init ⟨"ConvTranspose1d", .defaultConv1dInit, .defaultConv1dInit⟩).weight =
        TensorInit.normalDraw 0 (1 / 50) ∧
      (weights_init ⟨"ConvTranspose1d", .defaultConv1dInit, .defaultConv1dInit⟩).bias =
        TensorInit.defaultConv1dInit :=
  ⟨Or.inr rfl,
    c9_weights_init_amended ⟨"ConvTranspose1d", .defaultConv1dInit, .defaultConv1dInit⟩
      (Or.inr rfl)⟩
